import Mathlib

/-!
# Verification of the running-statistics core of `garmin-running-coach`

This file gives a shallow embedding of the statistics-aggregation core of the
repository (`garmin_client.py`: `get_weekly_stats`, `get_monthly_stats`,
`format_pace`; `ai_coach.py`: `_build_weekly_prompt`) and proves properties of
the embedded definitions.

Modelling conventions:
* Python floats are modelled as `ℚ` (the aggregation arithmetic on the inputs
  considered here is exact decimal arithmetic).
* Python `datetime.datetime` is modelled by a civil record `DateTime`;
  comparisons between valid datetimes coincide with comparisons of the
  instant (microseconds from 1970-01-01 00:00:00), which is how we model them.
* Python dicts of known shape are modelled as structures; an absent key is
  `Option.none`, and `dict.get(k, default)` is `Option.getD`.
* Exceptions raised by the embedded code are modelled with `Except String`.
-/

set_option maxRecDepth 200000

namespace GarminCoach

/-! ## Proleptic Gregorian calendar arithmetic

Models the day arithmetic underlying Python's `datetime` (ordinal days,
`timedelta` addition/subtraction, `weekday`).  `daysFromCivil` counts days
from 1970-01-01; `civilFromDays` is its inverse.  The calendar here is the
unbounded proleptic Gregorian calendar; Python restricts years to 1..9999 and
raises outside that range, which is irrelevant for the dates handled below. -/

/-- Days from 1970-01-01 to the civil date `y-m-d` (Howard Hinnant's
`days_from_civil` algorithm, using floor division throughout). -/
def daysFromCivil (y m d : Int) : Int :=
  let yy : Int := if m ≤ 2 then y - 1 else y
  let era : Int := yy / 400
  let yoe : Int := yy - era * 400
  let mp : Int := if 3 ≤ m then m - 3 else m + 9
  let doy : Int := (153 * mp + 2) / 5 + d - 1
  let doe : Int := yoe * 365 + yoe / 4 - yoe / 100 + doy
  era * 146097 + doe - 719468

/-- Day count (relative to 0000-03-01) of March 1 of the March-based year `y`. -/
def mar1Day (y : Int) : Int := 365 * y + y / 4 - y / 100 + y / 400

/-- The March-based year containing day `z` (counted from 0000-03-01):
an approximation from the average year length, corrected by at most one. -/
def marchYearOf (z : Int) : Int :=
  if z < mar1Day (400 * z / 146097) then 400 * z / 146097 - 1
  else if z < mar1Day (400 * z / 146097 + 1) then 400 * z / 146097
  else 400 * z / 146097 + 1

/-- Inverse of `daysFromCivil`: the civil date `(y, m, d)` of day `z`
counted from 1970-01-01. -/
def civilFromDays (z : Int) : Int × Int × Int :=
  let z' := z + 719468
  let y := marchYearOf z'
  let doy := z' - mar1Day y
  let mp := (5 * doy + 2) / 153
  let d := doy - (153 * mp + 2) / 5 + 1
  let m := if mp < 10 then mp + 3 else mp - 9
  (if m ≤ 2 then y + 1 else y, m, d)

set_option maxHeartbeats 1000000 in
theorem mar1Day_approx_lower (z : Int) : mar1Day (400 * z / 146097 - 1) ≤ z := by
  unfold mar1Day; omega

set_option maxHeartbeats 1000000 in
theorem mar1Day_approx_upper (z : Int) : z < mar1Day (400 * z / 146097 + 2) := by
  unfold mar1Day; omega

theorem marchYearOf_spec (z : Int) :
    mar1Day (marchYearOf z) ≤ z ∧ z < mar1Day (marchYearOf z + 1) := by
  have h1 := mar1Day_approx_lower z
  have h2 := mar1Day_approx_upper z
  unfold mar1Day at h1 h2
  unfold marchYearOf mar1Day
  split
  · next hz => refine ⟨?_, ?_⟩ <;> omega
  · next hz =>
    split
    · next hz2 => refine ⟨?_, ?_⟩ <;> omega
    · next hz2 => refine ⟨?_, ?_⟩ <;> omega

set_option maxHeartbeats 1000000 in
theorem daysFromCivil_reconstruct (y doy mp : Int) (h1 : 0 ≤ doy) (h2 : doy ≤ 365)
    (hmp : mp = (5 * doy + 2) / 153) :
    daysFromCivil
      (if (if mp < 10 then mp + 3 else mp - 9) ≤ 2 then y + 1 else y)
      (if mp < 10 then mp + 3 else mp - 9)
      (doy - (153 * mp + 2) / 5 + 1)
      = mar1Day y + doy - 719468 := by
  have hb : 0 ≤ mp ∧ mp ≤ 11 := by omega
  by_cases hc : mp < 10
  · rw [if_pos hc, if_neg (show ¬(mp + 3 ≤ 2) by omega)]
    simp only [daysFromCivil, mar1Day]
    rw [if_neg (show ¬(mp + 3 ≤ 2) by omega), if_pos (show (3:Int) ≤ mp + 3 by omega)]
    omega
  · rw [if_neg hc, if_pos (show mp - 9 ≤ 2 by omega)]
    simp only [daysFromCivil, mar1Day]
    rw [if_pos (show mp - 9 ≤ 2 by omega), if_neg (show ¬(3:Int) ≤ mp - 9 by omega)]
    omega

set_option maxHeartbeats 1000000 in
theorem daysFromCivil_civilFromDays (z : Int) :
    daysFromCivil (civilFromDays z).1 (civilFromDays z).2.1 (civilFromDays z).2.2 = z := by
  have hy := marchYearOf_spec (z + 719468)
  have hlen : mar1Day (marchYearOf (z + 719468) + 1)
      - mar1Day (marchYearOf (z + 719468)) ≤ 366 := by
    unfold mar1Day; omega
  simp only [civilFromDays]
  rw [daysFromCivil_reconstruct (marchYearOf (z + 719468))
    (z + 719468 - mar1Day (marchYearOf (z + 719468))) _ (by omega) (by omega) rfl]
  omega

/-! ## The `datetime` model -/

/-- Civil datetime record, modelling Python `datetime.datetime`. -/
structure DateTime where
  year : Int
  month : Int
  day : Int
  hour : Int
  minute : Int
  second : Int
  microsecond : Int
  deriving Repr, DecidableEq

/-- Ordinal day (days since 1970-01-01) of a datetime's date part. -/
def DateTime.dayNum (t : DateTime) : Int := daysFromCivil t.year t.month t.day

/-- The instant of a datetime, in microseconds since 1970-01-01 00:00:00.
Python compares `datetime` values field-lexicographically, which for valid
field ranges coincides with comparing this instant. -/
def DateTime.micros (t : DateTime) : Int :=
  t.dayNum * 86400000000 + t.hour * 3600000000 + t.minute * 60000000
    + t.second * 1000000 + t.microsecond

/-- The datetime at ordinal day `z` with the time-of-day fields of `t`
(Python `t - timedelta(days = n)` keeps the time of day). -/
def dtAtDay (z : Int) (t : DateTime) : DateTime :=
  ⟨(civilFromDays z).1, (civilFromDays z).2.1, (civilFromDays z).2.2,
    t.hour, t.minute, t.second, t.microsecond⟩

/-- `t - timedelta(days = n)`. -/
def DateTime.subDays (t : DateTime) (n : Int) : DateTime := dtAtDay (t.dayNum - n) t

/-- `t + timedelta(days = n)`. -/
def DateTime.addDays (t : DateTime) (n : Int) : DateTime := dtAtDay (t.dayNum + n) t

/-- `t.replace(hour=0, minute=0, second=0, microsecond=0)`. -/
def DateTime.atMidnight (t : DateTime) : DateTime :=
  { t with hour := 0, minute := 0, second := 0, microsecond := 0 }

/-- Python's `datetime.weekday()`: Monday is 0.  1970-01-01 was a Thursday
(weekday 3), hence the shift by 3. -/
def DateTime.weekday (t : DateTime) : Int := (t.dayNum + 3) % 7

theorem dayNum_dtAtDay (z : Int) (t : DateTime) : (dtAtDay z t).dayNum = z :=
  daysFromCivil_civilFromDays z

theorem micros_atMidnight_subDays (t : DateTime) (n : Int) :
    ((t.subDays n).atMidnight).micros = (t.dayNum - n) * 86400000000 := by
  simp [DateTime.micros, DateTime.atMidnight, DateTime.subDays, DateTime.dayNum]
  have h := dayNum_dtAtDay (t.dayNum - n) t
  simp [DateTime.dayNum] at h
  simp [dtAtDay] at *
  omega

/-! ## Model of Python `datetime.fromisoformat` (restricted)

Only the shapes `YYYY-MM-DD` and `YYYY-MM-DD{sep}HH:MM:SS` (`sep` a space or
`T`) occur in this code base (Garmin `startTimeLocal` values and the literal
default `"2000-01-01"`); other strings are mapped to `none`, modelling the
`ValueError` Python raises for them. -/

/-- Numeric value of a decimal digit character. -/
def digitVal (c : Char) : Int := (c.toNat : Int) - 48

def val2 (a b : Char) : Int := 10 * digitVal a + digitVal b

def val4 (a b c d : Char) : Int :=
  1000 * digitVal a + 100 * digitVal b + 10 * digitVal c + digitVal d

/-- Gregorian leap year. -/
def isLeap (y : Int) : Bool := (y % 4 = 0 && y % 100 != 0) || y % 400 = 0

def daysInMonth (y m : Int) : Int :=
  if m = 2 then (if isLeap y then 29 else 28)
  else if m = 4 ∨ m = 6 ∨ m = 9 ∨ m = 11 then 30
  else 31

/-- Range validation performed by the `datetime` constructor. -/
def mkDateTime? (y mo d h mi s : Int) : Option DateTime :=
  if 1 ≤ y ∧ y ≤ 9999 ∧ 1 ≤ mo ∧ mo ≤ 12 ∧ 1 ≤ d ∧ d ≤ daysInMonth y mo
      ∧ 0 ≤ h ∧ h ≤ 23 ∧ 0 ≤ mi ∧ mi ≤ 59 ∧ 0 ≤ s ∧ s ≤ 59 then
    some ⟨y, mo, d, h, mi, s, 0⟩
  else none

def fromisoformat? (str : String) : Option DateTime :=
  match str.toList with
  | [y1, y2, y3, y4, '-', m1, m2, '-', d1, d2] =>
    if [y1, y2, y3, y4, m1, m2, d1, d2].all Char.isDigit then
      mkDateTime? (val4 y1 y2 y3 y4) (val2 m1 m2) (val2 d1 d2) 0 0 0
    else none
  | [y1, y2, y3, y4, '-', m1, m2, '-', d1, d2, sep, h1, h2, ':', i1, i2, ':', s1, s2] =>
    if (sep = ' ' ∨ sep = 'T')
        ∧ [y1, y2, y3, y4, m1, m2, d1, d2, h1, h2, i1, i2, s1, s2].all Char.isDigit then
      mkDateTime? (val4 y1 y2 y3 y4) (val2 m1 m2) (val2 d1 d2)
        (val2 h1 h2) (val2 i1 i2) (val2 s1 s2)
    else none
  | _ => none

/-- `s.replace("Z", "")`: for the single-character pattern `"Z"` Python's
`str.replace` removes every occurrence of `'Z'`. -/
def removeZ (s : String) : String := ⟨s.toList.filter (fun c => c ≠ 'Z')⟩

/-! ## Activity records and the aggregation core (`garmin_client.py`) -/

/-- The fields of a Garmin activity dict read by the statistics and prompt
code.  `none` models an absent key; numeric values are rationals (exact
models of the floats that occur here). -/
structure Activity where
  startTimeLocal : Option String
  distance : Option ℚ
  duration : Option ℚ
  averageHR : Option ℚ
  deriving Repr, DecidableEq

/-- `datetime.fromisoformat(a.get("startTimeLocal", "2000-01-01").replace("Z", ""))`
(lines 203-204 and 270-271): `none` models the `ValueError` raised for an
unparseable string. -/
def parseStart (a : Activity) : Option DateTime :=
  fromisoformat? (removeZ (a.startTimeLocal.getD "2000-01-01"))

/-- The list comprehension selecting the activities of one bucket
(`week_start <= fromisoformat(...) < week_end`, lines 201-206 / 268-273).
Evaluating the condition parses each activity's timestamp; the first
unparseable one raises, modelled by `Except.error`. -/
def filterInWindow (ws we : DateTime) : List Activity → Except String (List Activity)
  | [] => .ok []
  | a :: rest =>
    match parseStart a with
    | none => .error "Invalid isoformat string"
    | some t =>
      match filterInWindow ws we rest with
      | .error e => .error e
      | .ok l => .ok (if ws.micros ≤ t.micros ∧ t.micros < we.micros then a :: l else l)

/-- `sum(a.get("distance", 0) for a in sel) / 1000` (lines 208-210). -/
def totalDistanceKm (sel : List Activity) : ℚ :=
  (sel.map (fun a => a.distance.getD 0)).sum / 1000

/-- `sum(a.get("duration", 0) for a in sel) / 60` (lines 212-214). -/
def totalDurationMin (sel : List Activity) : ℚ :=
  (sel.map (fun a => a.duration.getD 0)).sum / 60

/-- `(total_duration / total_distance) if total_distance > 0 else 0`
(line 216 / 283). -/
def avgPace (sel : List Activity) : ℚ :=
  if 0 < totalDistanceKm sel then totalDurationMin sel / totalDistanceKm sel else 0

/-- Python truthiness of `a.get("averageHR")`: false for an absent key and
for the number 0. -/
def hrTruthy (a : Activity) : Bool :=
  match a.averageHR with
  | none => false
  | some q => decide (q ≠ 0)

/-- The heart-rate accumulation loop of lines 218-223: running sum of the
readings of activities with truthy `averageHR`, and their count. -/
def hrSumCount : List Activity → ℚ × Nat
  | [] => (0, 0)
  | a :: rest =>
    let p := hrSumCount rest
    if hrTruthy a then (a.averageHR.getD 0 + p.1, p.2 + 1) else p

/-- `avg_hr = avg_hr / hr_count if hr_count > 0 else 0` (line 224). -/
def avgHeartRate (sel : List Activity) : ℚ :=
  let p := hrSumCount sel
  if 0 < p.2 then p.1 / p.2 else 0

/-- Round half to even to an integer, the rounding used by Python's
`round` on the exact decimal values occurring here. -/
def roundHalfEven (q : ℚ) : Int :=
  if q - ⌊q⌋ < 1/2 then ⌊q⌋
  else if 1/2 < q - ⌊q⌋ then ⌊q⌋ + 1
  else if ⌊q⌋ % 2 = 0 then ⌊q⌋ else ⌊q⌋ + 1

/-- Python `round(q, n)`. -/
def pyRound (q : ℚ) (n : ℕ) : ℚ := (roundHalfEven (q * 10 ^ n) : ℚ) / 10 ^ n

/-- Python `int(q)`: truncation toward zero. -/
def pyInt (q : ℚ) : Int := if 0 ≤ q then ⌊q⌋ else -⌊-q⌋

/-- Decimal rendering of an integer, zero-padded to width 2
(the f-string format `{:02d}`, and strftime's `%m`/`%d`). -/
def pad2 (i : Int) : String := if 0 ≤ i ∧ i < 10 then "0" ++ toString i else toString i

/-- Decimal rendering of an integer, zero-padded to width 4 (strftime `%Y`). -/
def pad4 (i : Int) : String :=
  if 0 ≤ i ∧ i < 10 then "000" ++ toString i
  else if 0 ≤ i ∧ i < 100 then "00" ++ toString i
  else if 0 ≤ i ∧ i < 1000 then "0" ++ toString i
  else toString i

/-- `t.strftime("%Y-%m-%d")`. -/
def strfDate (t : DateTime) : String := pad4 t.year ++ "-" ++ pad2 t.month ++ "-" ++ pad2 t.day

/-- `t.strftime("%Y-%m")`. -/
def strfYM (t : DateTime) : String := pad4 t.year ++ "-" ++ pad2 t.month

/-- The weekly stats dict appended at lines 226-234. -/
structure WeekStat where
  week_start : String
  week_end : String
  run_count : Nat
  total_distance_km : ℚ
  total_duration_min : ℚ
  avg_pace_min_km : ℚ
  avg_heart_rate : ℚ
  deriving Repr, DecidableEq

/-- The keys of the weekly stats dict literal (lines 226-234), in order. -/
def weekStatKeys : List String :=
  ["week_start", "week_end", "run_count", "total_distance_km",
   "total_duration_min", "avg_pace_min_km", "avg_heart_rate"]

/-- The monthly stats dict appended at lines 285-291. -/
structure MonthStat where
  month : String
  run_count : Nat
  total_distance_km : ℚ
  total_duration_min : ℚ
  avg_pace_min_km : ℚ
  deriving Repr, DecidableEq

/-- The keys of the monthly stats dict literal (lines 285-291), in order. -/
def monthStatKeys : List String :=
  ["month", "run_count", "total_distance_km", "total_duration_min", "avg_pace_min_km"]

/-- `week_start` of bucket `offset`:
`(today - timedelta(days=today.weekday() + 7*offset)).replace(hour=0, ...)`
(lines 197-198). -/
def wkStart (today : DateTime) (offset : Nat) : DateTime :=
  (today.subDays (today.weekday + 7 * offset)).atMidnight

/-- `week_end = week_start + timedelta(days=7)` (line 199). -/
def wkEnd (today : DateTime) (offset : Nat) : DateTime := (wkStart today offset).addDays 7

/-- The body of one iteration of the weekly loop (lines 196-234). -/
def weekBucket (today : DateTime) (acts : List Activity) (offset : Nat) :
    Except String WeekStat :=
  match filterInWindow (wkStart today offset) (wkEnd today offset) acts with
  | .error e => .error e
  | .ok sel => .ok
      { week_start := strfDate (wkStart today offset)
        week_end := strfDate (wkEnd today offset)
        run_count := sel.length
        total_distance_km := pyRound (totalDistanceKm sel) 2
        total_duration_min := pyRound (totalDurationMin sel) 1
        avg_pace_min_km := pyRound (avgPace sel) 2
        avg_heart_rate := pyRound (avgHeartRate sel) 0 }

/-- The accumulation of per-offset buckets into the result list
(the `for ... in range(n): ... .append(...)` loops); the first raised
exception aborts the whole computation. -/
def buildBuckets {α : Type} (f : Nat → Except String α) : List Nat → Except String (List α)
  | [] => .ok []
  | i :: rest =>
    match f i with
    | .error e => .error e
    | .ok b =>
      match buildBuckets f rest with
      | .error e => .error e
      | .ok t => .ok (b :: t)

/-- `get_weekly_stats` (lines 179-236), for an injected `today`
(`datetime.now()` at line 195) and an already-fetched activity list. -/
def getWeeklyStats (today : DateTime) (weeks : Nat) (acts : List Activity) :
    Except String (List WeekStat) :=
  buildBuckets (weekBucket today acts) (List.range weeks)

/-- The `while month <= 0: month += 12; year -= 1` loop of lines 258-260,
as a fuel-driven recursion; `wrapMonth` supplies enough fuel for the loop to
run to completion (`whileWrap_spec` below proves it does). -/
def whileWrap : Nat → Int → Int → Int × Int
  | 0, y, m => (y, m)
  | fuel + 1, y, m => if m ≤ 0 then whileWrap fuel (y - 1) (m + 12) else (y, m)

/-- `month = today.month - offset` followed by the wrapping loop
(lines 256-260). -/
def wrapMonth (y m : Int) : Int × Int := whileWrap (1 - m).toNat y m

def monthTarget (today : DateTime) (offset : Nat) : Int × Int :=
  wrapMonth today.year (today.month - offset)

/-- `month_start = datetime(year, month, 1)` (line 262). -/
def monthStartD (today : DateTime) (offset : Nat) : DateTime :=
  ⟨(monthTarget today offset).1, (monthTarget today offset).2, 1, 0, 0, 0, 0⟩

/-- `month_end` (lines 263-266): first day of the following month,
rolling December into January of the next year. -/
def monthEndD (today : DateTime) (offset : Nat) : DateTime :=
  if (monthTarget today offset).2 = 12 then
    ⟨(monthTarget today offset).1 + 1, 1, 1, 0, 0, 0, 0⟩
  else
    ⟨(monthTarget today offset).1, (monthTarget today offset).2 + 1, 1, 0, 0, 0, 0⟩

/-- The body of one iteration of the monthly loop (lines 255-291).  Note the
dict built here has no average-heart-rate entry. -/
def monthBucket (today : DateTime) (acts : List Activity) (offset : Nat) :
    Except String MonthStat :=
  match filterInWindow (monthStartD today offset) (monthEndD today offset) acts with
  | .error e => .error e
  | .ok sel => .ok
      { month := strfYM (monthStartD today offset)
        run_count := sel.length
        total_distance_km := pyRound (totalDistanceKm sel) 2
        total_duration_min := pyRound (totalDurationMin sel) 1
        avg_pace_min_km := pyRound (avgPace sel) 2 }

/-- `get_monthly_stats` (lines 238-293), for an injected `today` and an
already-fetched activity list. -/
def getMonthlyStats (today : DateTime) (months : Nat) (acts : List Activity) :
    Except String (List MonthStat) :=
  buildBuckets (monthBucket today acts) (List.range months)

/-- `format_pace` (lines 296-310). -/
def format_pace (pace_min_per_km : ℚ) : String :=
  if pace_min_per_km ≤ 0 then "--:--"
  else
    let minutes := pyInt pace_min_per_km
    let seconds := pyInt ((pace_min_per_km - minutes) * 60)
    toString minutes ++ ":" ++ pad2 seconds

/-! ## Prompt building (`ai_coach.py`) -/

/-- `LANGUAGE_INSTRUCTIONS.get(language, LANGUAGE_INSTRUCTIONS["en"])`
(lines 11-14 and 24-26). -/
def languageInstruction (language : String) : String :=
  match language with
  | "en" => "Please respond in English."
  | "ko" => "한국어로 답변해 주세요."
  | _ => "Please respond in English."

/-- Decimal digits of a natural number, zero-padded on the left to width `w`. -/
def natPad (n : Nat) (w : Nat) : String :=
  ⟨List.replicate (w - (toString n).length) '0'⟩ ++ toString n

/-- The f-string fixed-point format `{q:.prec f}`: round half to even at
`prec` decimal places and print exactly `prec` fractional digits (none, and
no point, for `prec = 0`). -/
def formatFixed (q : ℚ) (prec : ℕ) : String :=
  let n := roundHalfEven (q * 10 ^ prec)
  if prec = 0 then toString n
  else
    (if n < 0 then "-" else "") ++ toString (n.natAbs / 10 ^ prec) ++ "." ++
      natPad (n.natAbs % 10 ^ prec) prec

/-- The number of decimal digits needed to write `q` exactly, if at most 17
(every float interpolated below is exact at two decimals). -/
def decimalWidth (q : ℚ) : Option ℕ :=
  (List.range 18).find? (fun k => (q * 10 ^ k).den = 1)

/-- `str(x)` for a Python float holding a short decimal value: the shortest
exact decimal expansion, with at least one fractional digit (`str(0.0)` is
`"0.0"`). -/
def pyStrFloat (q : ℚ) : String :=
  match decimalWidth q with
  | some 0 => toString q.num ++ ".0"
  | some k => formatFixed q k
  | none => formatFixed q 17

/-- One iteration of the `for week in weekly_stats` loop of
`_build_weekly_prompt` (lines 69-77): the text appended to `stats_text`. -/
def weekLine (w : WeekStat) : String :=
  let pace_min := pyInt w.avg_pace_min_km
  let pace_sec := pyInt ((w.avg_pace_min_km - pace_min) * 60)
  "\n- Week of " ++ w.week_start ++ ":\n  - Runs: " ++ toString w.run_count
    ++ "\n  - Distance: " ++ pyStrFloat w.total_distance_km
    ++ " km\n  - Average Pace: " ++ toString pace_min ++ ":" ++ pad2 pace_sec
    ++ " min/km\n  - Avg HR: " ++ formatFixed w.avg_heart_rate 0 ++ " bpm"

/-- One iteration of the `for a in activities[:5]` loop of
`_build_weekly_prompt` (lines 80-87): the text appended to `recent_runs`. -/
def recentLine (a : Activity) : String :=
  let distance_km := a.distance.getD 0 / 1000
  let duration_min := a.duration.getD 0 / 60
  let avg_pace := if 0 < distance_km then duration_min / distance_km else 0
  let pace_min := pyInt avg_pace
  let pace_sec := pyInt ((avg_pace - pace_min) * 60)
  "- " ++ (a.startTimeLocal.getD "Unknown").take 10 ++ ": "
    ++ formatFixed distance_km 1 ++ "km at "
    ++ toString pace_min ++ ":" ++ pad2 pace_sec ++ "/km\n"

/-- `_build_weekly_prompt(weekly_stats, activities)` (lines 66-107), with the
coach's `language` passed explicitly. -/
def buildWeeklyPrompt (language : String) (weekly_stats : List WeekStat)
    (activities : List Activity) : String :=
  let stats_text := (weekly_stats.map weekLine).foldl (· ++ ·) ""
  let recent_runs := ((activities.take 5).map recentLine).foldl (· ++ ·) ""
  "Analyze this runner's training pattern and provide coaching feedback:\n\n**Weekly Training Summary (Last 4 weeks):**\n"
    ++ stats_text
    ++ "\n\n**Recent Runs:**\n"
    ++ recent_runs
    ++ "\n\nPlease provide:\n1. **Training Load Assessment**: Is the weekly volume appropriate? Any signs of overtraining?\n2. **Consistency Analysis**: How consistent is the training pattern?\n3. **Progress Trend**: Any improvement or decline in performance?\n4. **Recommended Focus**: What should this runner focus on next week?\n5. **Suggested Workout**: One specific workout recommendation\n\nKeep the response practical and motivating (under 400 words).\n\n"
    ++ languageInstruction language

/-- `pat` occurs as a leading segment of `s`. -/
def leadsC : List Char → List Char → Bool
  | [], _ => true
  | _ :: _, [] => false
  | a :: as, b :: bs => a = b && leadsC as bs

/-- `pat` occurs as a contiguous segment of `s`. -/
def hasSubC (pat : List Char) : List Char → Bool
  | [] => leadsC pat []
  | b :: bs => leadsC pat (b :: bs) || hasSubC pat bs

/-- Substring occurrence test (Python's `in` on strings). -/
def strContains (s pat : String) : Bool := hasSubC pat.toList s.toList

/-! ## General lemmas about the embedded definitions -/

theorem dayNum_wkStart (today : DateTime) (offset : Nat) :
    (wkStart today offset).dayNum = today.dayNum - today.weekday - 7 * offset := by
  have h := daysFromCivil_civilFromDays (today.dayNum - (today.weekday + 7 * offset))
  simp only [wkStart, DateTime.atMidnight, DateTime.subDays, dtAtDay, DateTime.dayNum] at h ⊢
  omega

theorem weekday_wkStart (today : DateTime) (offset : Nat) :
    (wkStart today offset).weekday = 0 := by
  unfold DateTime.weekday
  rw [dayNum_wkStart]
  unfold DateTime.weekday at *
  omega

theorem wkStart_time_fields (today : DateTime) (offset : Nat) :
    (wkStart today offset).hour = 0 ∧ (wkStart today offset).minute = 0
      ∧ (wkStart today offset).second = 0 ∧ (wkStart today offset).microsecond = 0 := by
  simp [wkStart, DateTime.atMidnight]

theorem micros_wkStart (today : DateTime) (offset : Nat) :
    (wkStart today offset).micros
      = (today.dayNum - today.weekday - 7 * offset) * 86400000000 := by
  have h := dayNum_wkStart today offset
  have ht := wkStart_time_fields today offset
  unfold DateTime.micros
  rw [h, ht.1, ht.2.1, ht.2.2.1, ht.2.2.2]
  ring

theorem micros_wkEnd (today : DateTime) (offset : Nat) :
    (wkEnd today offset).micros = (wkStart today offset).micros + 7 * 86400000000 := by
  have ht := wkStart_time_fields today offset
  have h := dayNum_dtAtDay ((wkStart today offset).dayNum + 7) (wkStart today offset)
  unfold wkEnd DateTime.addDays
  unfold DateTime.micros
  rw [h]
  simp only [dtAtDay]
  rw [ht.1, ht.2.1, ht.2.2.1, ht.2.2.2]
  ring

theorem filterInWindow_ok_exists (ws we : DateTime) (acts : List Activity) :
    (∃ l, filterInWindow ws we acts = .ok l)
      ↔ ∀ a ∈ acts, (parseStart a).isSome = true := by
  induction acts with
  | nil => simp [filterInWindow]
  | cons b rest ih =>
    simp only [filterInWindow, List.mem_cons]
    cases hb : parseStart b with
    | none =>
      simp only [hb]
      constructor
      · rintro ⟨l, hl⟩; cases hl
      · intro h
        have := h b (Or.inl rfl)
        rw [hb] at this
        cases this
    | some t =>
      simp only [hb]
      cases hrest : filterInWindow ws we rest with
      | error e =>
        constructor
        · rintro ⟨l, hl⟩; cases hl
        · intro h
          have hex : ∃ l, filterInWindow ws we rest = .ok l :=
            ih.mpr (fun a ha => h a (Or.inr ha))
          rw [hrest] at hex
          rcases hex with ⟨l, hl⟩
          cases hl
      | ok l =>
        constructor
        · intro _ a ha
          rcases ha with rfl | ha
          · rw [hb]; rfl
          · exact ih.mp ⟨l, hrest⟩ a ha
        · intro _
          exact ⟨_, rfl⟩

theorem mem_filterInWindow (ws we : DateTime) (acts : List Activity) (l : List Activity)
    (h : filterInWindow ws we acts = .ok l) (a : Activity) (t : DateTime)
    (hp : parseStart a = some t) :
    a ∈ l ↔ (a ∈ acts ∧ ws.micros ≤ t.micros ∧ t.micros < we.micros) := by
  induction acts generalizing l with
  | nil =>
    simp only [filterInWindow] at h
    cases h
    simp
  | cons b rest ih =>
    simp only [filterInWindow] at h
    cases hb : parseStart b with
    | none => rw [hb] at h; cases h
    | some tb =>
      rw [hb] at h
      cases hrest : filterInWindow ws we rest with
      | error e => rw [hrest] at h; cases h
      | ok l' =>
        rw [hrest] at h
        cases h
        rcases eq_or_ne a b with rfl | hne
        · rw [hp] at hb
          cases hb
          by_cases hc : ws.micros ≤ t.micros ∧ t.micros < we.micros
          · simp [if_pos hc, hc]
          · rw [if_neg hc, ih l' hrest]
            simp [hc]
        · have hmem : a ∈ (if ws.micros ≤ tb.micros ∧ tb.micros < we.micros
              then b :: l' else l') ↔ a ∈ l' := by
            split
            · simp [hne]
            · rfl
          rw [hmem, ih l' hrest]
          simp [hne]

theorem buildBuckets_ok_length {α : Type} (f : Nat → Except String α) (is : List Nat)
    (l : List α) (h : buildBuckets f is = .ok l) : l.length = is.length := by
  induction is generalizing l with
  | nil => simp only [buildBuckets] at h; cases h; rfl
  | cons i rest ih =>
    simp only [buildBuckets] at h
    cases hi : f i with
    | error e => rw [hi] at h; cases h
    | ok b =>
      rw [hi] at h
      cases hrest : buildBuckets f rest with
      | error e => rw [hrest] at h; cases h
      | ok t =>
        rw [hrest] at h
        cases h
        simp [ih t hrest]

theorem buildBuckets_ok_get {α : Type} (f : Nat → Except String α) (is : List Nat)
    (l : List α) (h : buildBuckets f is = .ok l) (i : Nat) (hi : i < is.length)
    (hl : i < l.length) : f (is.get ⟨i, hi⟩) = .ok (l.get ⟨i, hl⟩) := by
  induction is generalizing l i with
  | nil => exact absurd hi (by simp)
  | cons j rest ih =>
    simp only [buildBuckets] at h
    cases hj : f j with
    | error e => rw [hj] at h; cases h
    | ok b =>
      rw [hj] at h
      cases hrest : buildBuckets f rest with
      | error e => rw [hrest] at h; cases h
      | ok t =>
        rw [hrest] at h
        cases h
        cases i with
        | zero => simpa using hj
        | succ i' =>
          have hi' : i' < rest.length := by simpa using hi
          have hl' : i' < t.length := by simpa using hl
          simpa using ih t hrest i' hi' hl'

theorem buildBuckets_ok_exists {α : Type} (f : Nat → Except String α) (is : List Nat) :
    (∃ l, buildBuckets f is = .ok l) ↔ ∀ i ∈ is, ∃ b, f i = .ok b := by
  induction is with
  | nil => simp [buildBuckets]
  | cons j rest ih =>
    simp only [buildBuckets, List.mem_cons]
    constructor
    · rintro ⟨l, hl⟩ i hi
      cases hj : f j with
      | error e => rw [hj] at hl; cases hl
      | ok b =>
        rw [hj] at hl
        cases hrest : buildBuckets f rest with
        | error e => rw [hrest] at hl; cases hl
        | ok t =>
          rcases hi with rfl | hi
          · exact ⟨b, hj⟩
          · exact ih.mp ⟨t, hrest⟩ i hi
    · intro h
      rcases h j (Or.inl rfl) with ⟨b, hb⟩
      rcases ih.mpr (fun i hi => h i (Or.inr hi)) with ⟨t, ht⟩
      exact ⟨b :: t, by rw [hb, ht]⟩

theorem whileWrap_spec (fuel : Nat) : ∀ y m : Int, 1 - 12 * (fuel : Int) ≤ m →
    1 ≤ (whileWrap fuel y m).2
      ∧ 12 * (whileWrap fuel y m).1 + (whileWrap fuel y m).2 = 12 * y + m
      ∧ (m ≤ 12 → (whileWrap fuel y m).2 ≤ 12) := by
  induction fuel with
  | zero =>
    intro y m h
    push_cast at h
    exact ⟨show (1:Int) ≤ m by omega, rfl, fun _ => show m ≤ (12:Int) by omega⟩
  | succ n ih =>
    intro y m h
    simp only [whileWrap]
    split
    · next hm =>
      have hrec := ih (y - 1) (m + 12) (by push_cast at h ⊢; omega)
      refine ⟨hrec.1, by omega, fun _ => hrec.2.2 (by omega)⟩
    · next hm =>
      refine ⟨by omega, by omega, fun h12 => by omega⟩

theorem wrapMonth_spec (y m : Int) (hm : m ≤ 12) :
    1 ≤ (wrapMonth y m).2 ∧ (wrapMonth y m).2 ≤ 12
      ∧ 12 * (wrapMonth y m).1 + (wrapMonth y m).2 = 12 * y + m := by
  have h := whileWrap_spec (1 - m).toNat y m (by omega)
  exact ⟨h.1, h.2.2 hm, h.2.1⟩

theorem hrSumCount_spec (sel : List Activity) :
    hrSumCount sel
      = (((sel.filter (fun a => hrTruthy a)).map (fun a => a.averageHR.getD 0)).sum,
         (sel.filter (fun a => hrTruthy a)).length) := by
  induction sel with
  | nil => simp [hrSumCount]
  | cons a rest ih =>
    simp only [hrSumCount, ih]
    by_cases h : hrTruthy a
    · simp [h, List.filter_cons]
    · simp [h, List.filter_cons]

theorem pyRound_zero (n : ℕ) : pyRound 0 n = 0 := by
  unfold pyRound roundHalfEven
  norm_num

theorem pyInt_of_nonneg (q : ℚ) (h : 0 ≤ q) : pyInt q = ⌊q⌋ := if_pos h

theorem weekBucket_ok (today : DateTime) (acts : List Activity) (offset : Nat)
    (sel : List Activity)
    (h : filterInWindow (wkStart today offset) (wkEnd today offset) acts = .ok sel) :
    weekBucket today acts offset = .ok
      { week_start := strfDate (wkStart today offset)
        week_end := strfDate (wkEnd today offset)
        run_count := sel.length
        total_distance_km := pyRound (totalDistanceKm sel) 2
        total_duration_min := pyRound (totalDurationMin sel) 1
        avg_pace_min_km := pyRound (avgPace sel) 2
        avg_heart_rate := pyRound (avgHeartRate sel) 0 } := by
  unfold weekBucket
  rw [h]

theorem monthBucket_ok (today : DateTime) (acts : List Activity) (offset : Nat)
    (sel : List Activity)
    (h : filterInWindow (monthStartD today offset) (monthEndD today offset) acts = .ok sel) :
    monthBucket today acts offset = .ok
      { month := strfYM (monthStartD today offset)
        run_count := sel.length
        total_distance_km := pyRound (totalDistanceKm sel) 2
        total_duration_min := pyRound (totalDurationMin sel) 1
        avg_pace_min_km := pyRound (avgPace sel) 2 } := by
  unfold monthBucket
  rw [h]

theorem weekBucket_ok_iff (today : DateTime) (acts : List Activity) (offset : Nat) :
    (∃ b, weekBucket today acts offset = .ok b)
      ↔ ∃ sel, filterInWindow (wkStart today offset) (wkEnd today offset) acts = .ok sel := by
  unfold weekBucket
  cases h : filterInWindow (wkStart today offset) (wkEnd today offset) acts with
  | error e => simp only [h]; simp
  | ok sel => simp only [h]; simp

theorem monthBucket_ok_iff (today : DateTime) (acts : List Activity) (offset : Nat) :
    (∃ b, monthBucket today acts offset = .ok b)
      ↔ ∃ sel,
          filterInWindow (monthStartD today offset) (monthEndD today offset) acts = .ok sel := by
  unfold monthBucket
  cases h : filterInWindow (monthStartD today offset) (monthEndD today offset) acts with
  | error e => simp only [h]; simp
  | ok sel => simp only [h]; simp

/-! ## Concrete inputs used by counterexamples and witnesses -/

/-- A Wednesday afternoon, used as the injected `datetime.now()`. -/
def cToday : DateTime := ⟨2026, 10, 7, 15, 30, 0, 0⟩

/-- An activity whose `startTimeLocal` is present but not parseable. -/
def badTsAct : Activity := ⟨some "not-a-date", some 5000, some 1800, none⟩

/-- An activity with a parseable timestamp inside `cToday`'s week and a
negative distance. -/
def negDistAct : Activity := ⟨some "2026-10-07 10:00:00", some (-5000), some 1800, none⟩

/-- An activity dated exactly at the Monday-midnight week start of `cToday`. -/
def mondayAct : Activity := ⟨some "2026-10-05 00:00:00", some 5000, some 1800, none⟩

/-- The parsed timestamp of `mondayAct`. -/
def mondayDT : DateTime := ⟨2026, 10, 5, 0, 0, 0, 0⟩

/-- A second activity in `cToday`'s week (10 km in 60 min). -/
def tuesdayAct : Activity := ⟨some "2026-10-06 10:00:00", some 10000, some 3600, none⟩

/-! ## The claims -/

/-- C1: the claim says a record with an unparseable timestamp or a negative
distance/duration is silently excluded and that the aggregation never
propagates an exception.  Both parts fail on the code: an unparseable
`startTimeLocal` makes `get_weekly_stats` and `get_monthly_stats` raise
(`fromisoformat` is not guarded), and a negative distance is summed into the
bucket (run_count 1, total_distance_km -5), not excluded. -/
theorem C1_counterexample :
    getWeeklyStats cToday 1 [badTsAct] = .error "Invalid isoformat string"
    ∧ getMonthlyStats cToday 1 [badTsAct] = .error "Invalid isoformat string"
    ∧ getWeeklyStats cToday 1 [negDistAct]
        = .ok [⟨"2026-10-05", "2026-10-12", 1, -5, 30, 0, 0⟩] :=
  ⟨by with_unfolding_all rfl, by with_unfolding_all rfl, by with_unfolding_all rfl⟩

/-- C1 (amended): when at least one bucket is requested, the aggregation
returns normally if and only if every record's effective timestamp string
(the `startTimeLocal` value, or the default `"2000-01-01"` when the key is
missing) parses; an unparseable timestamp makes the whole aggregation raise,
and nothing (in particular no negative distance or duration) is otherwise
excluded. -/
theorem C1_amended_behavior (today : DateTime) (n : Nat) (acts : List Activity)
    (hn : 1 ≤ n) :
    ((∃ l, getWeeklyStats today n acts = .ok l)
        ↔ ∀ a ∈ acts, (parseStart a).isSome = true)
    ∧ ((∃ l, getMonthlyStats today n acts = .ok l)
        ↔ ∀ a ∈ acts, (parseStart a).isSome = true) := by
  constructor
  · rw [getWeeklyStats, buildBuckets_ok_exists]
    constructor
    · intro h
      have h0 := h 0 (by simp; omega)
      rw [← filterInWindow_ok_exists (wkStart today 0) (wkEnd today 0) acts]
      exact (weekBucket_ok_iff today acts 0).mp h0
    · intro h i _
      exact (weekBucket_ok_iff today acts i).mpr
        ((filterInWindow_ok_exists _ _ acts).mpr h)
  · rw [getMonthlyStats, buildBuckets_ok_exists]
    constructor
    · intro h
      have h0 := h 0 (by simp; omega)
      rw [← filterInWindow_ok_exists (monthStartD today 0) (monthEndD today 0) acts]
      exact (monthBucket_ok_iff today acts 0).mp h0
    · intro h i _
      exact (monthBucket_ok_iff today acts i).mpr
        ((filterInWindow_ok_exists _ _ acts).mpr h)

/-- C1 witness: at a concrete input whose timestamps all parse, both
aggregations return normally. -/
theorem C1_amended_behavior_witness :
    (∃ l, getWeeklyStats cToday 1 [negDistAct] = .ok l)
    ∧ (∃ l, getMonthlyStats cToday 1 [negDistAct] = .ok l) := by
  have h := C1_amended_behavior cToday 1 [negDistAct] (le_refl 1)
  have hp : ∀ a ∈ [negDistAct], (parseStart a).isSome = true := by
    intro a ha
    simp only [List.mem_singleton] at ha
    subst ha
    with_unfolding_all rfl
  exact ⟨h.1.mpr hp, h.2.mpr hp⟩

/-- C2: the claim requires the empty bucket's `avgHeartRate` to be a no-data
sentinel distinct from 0 ("not 0").  On the code the empty weekly bucket has
`avg_heart_rate = 0` (and `avg_pace_min_km = 0`): 0 itself is the in-band
no-data value, so the "(not 0)" part of the claim is false. -/
theorem C2_counterexample :
    getWeeklyStats cToday 1 [] = .ok [⟨"2026-10-05", "2026-10-12", 0, 0, 0, 0, 0⟩]
    ∧ ((getWeeklyStats cToday 1 []).toOption.getD []).map (fun b => b.avg_heart_rate)
        = [0] :=
  ⟨by with_unfolding_all rfl, by with_unfolding_all rfl⟩

/-- C2 (amended): a bucket whose selected activity set is empty is
well-formed and raises nothing: `run_count = 0`, the distance and duration
totals are 0, and both `avg_pace_min_km` and `avg_heart_rate` equal 0, the
value the code uses as its in-band no-data marker (there is no out-of-band
sentinel distinct from 0).  This holds for weekly and monthly buckets. -/
theorem C2_empty_bucket (today : DateTime) (offset : Nat) (acts : List Activity) :
    (filterInWindow (wkStart today offset) (wkEnd today offset) acts = .ok [] →
      weekBucket today acts offset = .ok
        ⟨strfDate (wkStart today offset), strfDate (wkEnd today offset), 0, 0, 0, 0, 0⟩)
    ∧ (filterInWindow (monthStartD today offset) (monthEndD today offset) acts = .ok [] →
      monthBucket today acts offset = .ok
        ⟨strfYM (monthStartD today offset), 0, 0, 0, 0⟩) := by
  constructor
  · intro h
    rw [weekBucket_ok today acts offset [] h]
    norm_num [totalDistanceKm, totalDurationMin, avgPace, avgHeartRate, hrSumCount,
      pyRound_zero]
  · intro h
    rw [monthBucket_ok today acts offset [] h]
    norm_num [totalDistanceKm, totalDurationMin, avgPace, avgHeartRate, pyRound_zero]

/-- C2 witness: the empty-selection theorem applied at a concrete date. -/
theorem C2_empty_bucket_witness :
    weekBucket cToday [] 0 = .ok ⟨"2026-10-05", "2026-10-12", 0, 0, 0, 0, 0⟩ := by
  have h := (C2_empty_bucket cToday 0 []).1 (by with_unfolding_all rfl)
  rw [h]
  with_unfolding_all rfl

/-- A weekly-statistics bucket holding the code's no-data values for pace
and heart rate. -/
def sentinelWeek : WeekStat := ⟨"2026-09-28", "2026-10-05", 0, 0, 0, 0, 0⟩

/-- C3: the claim (and the spec's contract) requires the weekly prompt
builder to render no-data pace/heart-rate values as explicit "no data"
markers, never "0:00" or "0 bpm".  The code's `_build_weekly_prompt` renders
exactly "Average Pace: 0:00 min/km" and "Avg HR: 0 bpm" for a sentinel
bucket and contains no "no data" marker, although the repository's own
`format_pace` helper renders "--:--" for the same value: the builder
collapses the sentinel into zero, the very bug the spec calls out. -/
theorem C3_sentinel_rendered_as_zero :
    strContains (buildWeeklyPrompt "en" [sentinelWeek] []) "Average Pace: 0:00 min/km" = true
    ∧ strContains (buildWeeklyPrompt "en" [sentinelWeek] []) "Avg HR: 0 bpm" = true
    ∧ strContains (buildWeeklyPrompt "en" [sentinelWeek] []) "no data" = false
    ∧ format_pace sentinelWeek.avg_pace_min_km = "--:--" :=
  ⟨by with_unfolding_all rfl, by with_unfolding_all rfl, by with_unfolding_all rfl,
    by with_unfolding_all rfl⟩

/-- C4: for every anchor `today` and offset, the weekly bucket start is a
Monday (weekday 0) at local midnight, lying 7*offset days before the Monday
of `today`'s week (the unique Monday in the half-open week `(today - 7
days, today]`); the bucket's end is exactly 7 days after its start; and
membership is half-open: an activity whose parsed start instant equals the
week start is selected, one whose instant equals the week end is not. -/
theorem C4_weekly_bucket_boundaries (today : DateTime) (offset : Nat)
    (acts sel : List Activity) (a : Activity) (t : DateTime)
    (hf : filterInWindow (wkStart today offset) (wkEnd today offset) acts = .ok sel)
    (ha : a ∈ acts) (hp : parseStart a = some t) :
    (wkStart today offset).weekday = 0
    ∧ (wkStart today offset).hour = 0 ∧ (wkStart today offset).minute = 0
    ∧ (wkStart today offset).second = 0 ∧ (wkStart today offset).microsecond = 0
    ∧ (wkStart today offset).dayNum = (wkStart today 0).dayNum - 7 * offset
    ∧ (wkStart today 0).dayNum ≤ today.dayNum
    ∧ today.dayNum < (wkStart today 0).dayNum + 7
    ∧ (wkEnd today offset).micros = (wkStart today offset).micros + 7 * 86400000000
    ∧ (t.micros = (wkStart today offset).micros → a ∈ sel)
    ∧ (t.micros = (wkEnd today offset).micros → a ∉ sel) := by
  have hmem := mem_filterInWindow (wkStart today offset) (wkEnd today offset) acts sel hf a t hp
  have hend := micros_wkEnd today offset
  have hd := dayNum_wkStart today offset
  have hd0 := dayNum_wkStart today 0
  have hwd : 0 ≤ today.weekday ∧ today.weekday < 7 := by
    unfold DateTime.weekday; omega
  refine ⟨weekday_wkStart today offset, (wkStart_time_fields today offset).1,
    (wkStart_time_fields today offset).2.1, (wkStart_time_fields today offset).2.2.1,
    (wkStart_time_fields today offset).2.2.2, by omega, by omega, by omega, hend, ?_, ?_⟩
  · intro ht
    exact hmem.mpr ⟨ha, by omega, by omega⟩
  · intro ht hin
    have := hmem.mp hin
    omega

/-- C4 witness: for the Wednesday `cToday`, the week starts on the preceding
Monday, and an activity dated exactly at that Monday midnight is selected. -/
theorem C4_weekly_bucket_boundaries_witness :
    (wkStart cToday 0).weekday = 0 ∧ mondayAct ∈ ([mondayAct] : List Activity) := by
  have h := C4_weekly_bucket_boundaries cToday 0 [mondayAct] [mondayAct] mondayAct mondayDT
    (by with_unfolding_all rfl) (by simp) (by with_unfolding_all rfl)
  obtain ⟨h1, _, _, _, _, _, _, _, _, hmem, _⟩ := h
  exact ⟨h1, hmem (by with_unfolding_all rfl)⟩

/-- Year of the `month_end` datetime of a monthly bucket. -/
def monthEndY (today : DateTime) (offset : Nat) : Int :=
  if (monthTarget today offset).2 = 12 then (monthTarget today offset).1 + 1
  else (monthTarget today offset).1

/-- Month of the `month_end` datetime of a monthly bucket. -/
def monthEndM (today : DateTime) (offset : Nat) : Int :=
  if (monthTarget today offset).2 = 12 then 1 else (monthTarget today offset).2 + 1

/-- C5: given a valid anchor month, `get_monthly_stats` returns exactly `N`
buckets, bucket `i` being the bucket of the `i`-th month counting backwards
from the current one (linearised month index `12*year + month` decreases by
exactly 1 per step, so months are consecutive: none skipped, none
duplicated, most recent first), with the target month wrapped into `1..12`
and the year rolled down, the bucket interval being
`[firstOfMonth, firstOfNextMonth)` where the end month is the calendar
successor of the target month (December rolling into January). -/
theorem C5_monthly_buckets (today : DateTime) (months : Nat) (acts : List Activity)
    (l : List MonthStat) (hm1 : 1 ≤ today.month) (hm2 : today.month ≤ 12)
    (hok : getMonthlyStats today months acts = .ok l) :
    l.length = months
    ∧ (∀ i : Nat, i < months →
        1 ≤ (monthTarget today i).2 ∧ (monthTarget today i).2 ≤ 12
        ∧ 12 * (monthTarget today i).1 + (monthTarget today i).2
            = 12 * today.year + today.month - i
        ∧ monthStartD today i
            = ⟨(monthTarget today i).1, (monthTarget today i).2, 1, 0, 0, 0, 0⟩
        ∧ monthEndD today i = ⟨monthEndY today i, monthEndM today i, 1, 0, 0, 0, 0⟩
        ∧ 12 * monthEndY today i + monthEndM today i
            = 12 * (monthTarget today i).1 + (monthTarget today i).2 + 1)
    ∧ (∀ i : Nat, i < months → ∀ hil : i < l.length,
        monthBucket today acts i = .ok (l.get ⟨i, hil⟩))
    ∧ (∀ i : Nat, ∀ sel : List Activity,
        filterInWindow (monthStartD today i) (monthEndD today i) acts = .ok sel →
        ∀ b ∈ acts, ∀ tb : DateTime, parseStart b = some tb →
          (b ∈ sel ↔ ((monthStartD today i).micros ≤ tb.micros
            ∧ tb.micros < (monthEndD today i).micros))) := by
  have hlen : l.length = months := by
    have := buildBuckets_ok_length (monthBucket today acts) (List.range months) l hok
    simpa using this
  refine ⟨hlen, ?_, ?_, ?_⟩
  · intro i hi
    have hw := wrapMonth_spec today.year (today.month - i) (by omega)
    have ht : monthTarget today i = wrapMonth today.year (today.month - i) := rfl
    refine ⟨by rw [ht]; exact hw.1, by rw [ht]; exact hw.2.1, by rw [ht]; omega, rfl, ?_, ?_⟩
    · unfold monthEndD monthEndY monthEndM
      split
      · rfl
      · rfl
    · unfold monthEndY monthEndM
      split
      · omega
      · omega
  · intro i hi hil
    have hg := buildBuckets_ok_get (monthBucket today acts) (List.range months) l hok i
      (by simpa using hi) hil
    simpa using hg
  · intro i sel hsel b hb tb htb
    have := mem_filterInWindow (monthStartD today i) (monthEndD today i) acts sel hsel b tb htb
    rw [this]
    simp [hb]

/-- The March anchor of the C5 witness. -/
def marToday : DateTime := ⟨2026, 3, 10, 8, 0, 0, 0⟩

/-- C5 witness: 14 trailing months from a March 2026 anchor give 14 buckets,
the oldest being February of the prior year. -/
theorem C5_monthly_buckets_witness :
    ((getMonthlyStats marToday 14 []).toOption.getD []).length = 14
    ∧ monthTarget marToday 13 = (2025, 2) := by
  have h := C5_monthly_buckets marToday 14 []
    ((getMonthlyStats marToday 14 []).toOption.getD [])
    (by norm_num [marToday]) (by norm_num [marToday]) (by with_unfolding_all rfl)
  refine ⟨h.1, ?_⟩
  have h13 := h.2.1 13 (by norm_num)
  have hy : marToday.year = 2026 := rfl
  have hm : marToday.month = 3 := rfl
  have : (monthTarget marToday 13).1 = 2025 ∧ (monthTarget marToday 13).2 = 2 := by
    rw [hy, hm] at h13
    push_cast at h13
    omega
  exact Prod.ext this.1 this.2

/-- An activity with 1 km in 5 minutes (pace 5 min/km). -/
def paceDemoA : Activity := ⟨none, some 1000, some 300, none⟩

/-- An activity with 10 km in 60 minutes (pace 6 min/km). -/
def paceDemoB : Activity := ⟨none, some 10000, some 3600, none⟩

/-- Modelled from the spec's words (the computation the spec contrasts the
code with, not anything the source does): the pace of a single activity. -/
def specPaceOf (a : Activity) : ℚ := (a.duration.getD 0 / 60) / (a.distance.getD 0 / 1000)

/-- Modelled from the spec's words: the arithmetic mean of the per-activity
paces of a bucket, which the spec says the code deliberately does NOT use. -/
def specArithMeanPace (sel : List Activity) : ℚ := (sel.map specPaceOf).sum / sel.length

/-- C6: for a bucket with positive total distance, the pre-rounding average
pace is the distance-weighted ratio `totalDurationMin / totalDistanceKm` of
the member sums, the stored bucket field is that ratio rounded to 2 decimal
places, and this differs from the arithmetic mean of per-activity paces
(witnessed by a pair of activities where the ratio of sums is 65/11 min/km
but the mean of paces is 11/2 min/km). -/
theorem C6_pace_is_ratio_of_sums :
    (∀ (today : DateTime) (offset : Nat) (acts sel : List Activity) (b : WeekStat),
      filterInWindow (wkStart today offset) (wkEnd today offset) acts = .ok sel →
      weekBucket today acts offset = .ok b →
      0 < totalDistanceKm sel →
      avgPace sel = totalDurationMin sel / totalDistanceKm sel
        ∧ b.avg_pace_min_km = pyRound (totalDurationMin sel / totalDistanceKm sel) 2)
    ∧ avgPace [paceDemoA, paceDemoB] ≠ specArithMeanPace [paceDemoA, paceDemoB] := by
  constructor
  · intro today offset acts sel b hf hb hpos
    have hone : avgPace sel = totalDurationMin sel / totalDistanceKm sel := by
      unfold avgPace
      rw [if_pos hpos]
    refine ⟨hone, ?_⟩
    rw [weekBucket_ok today acts offset sel hf] at hb
    have hb' := (Except.ok.injEq _ _).mp hb.symm
    rw [hb']
    rw [hone]
  · have e1 : avgPace [paceDemoA, paceDemoB] = 65 / 11 := by with_unfolding_all rfl
    have e2 : specArithMeanPace [paceDemoA, paceDemoB] = 11 / 2 := by with_unfolding_all rfl
    rw [e1, e2]
    norm_num

/-- C6 witness: the general part applied to the two concrete in-week
activities of `cToday`'s week (15 km and 90 min in total, pace 6). -/
theorem C6_pace_is_ratio_of_sums_witness :
    avgPace [mondayAct, tuesdayAct]
      = totalDurationMin [mondayAct, tuesdayAct] / totalDistanceKm [mondayAct, tuesdayAct] := by
  have h := C6_pace_is_ratio_of_sums.1 cToday 0 [mondayAct, tuesdayAct] [mondayAct, tuesdayAct]
    ⟨"2026-10-05", "2026-10-12", 2, 15, 90, 6, 0⟩
    (by with_unfolding_all rfl) (by with_unfolding_all rfl)
    (by rw [show totalDistanceKm [mondayAct, tuesdayAct] = 15 from by with_unfolding_all rfl]
        norm_num)
  exact h.1

/-- An in-week activity with a heart-rate reading of 150. -/
def hrActA : Activity := ⟨some "2026-10-05 08:00:00", none, none, some 150⟩

/-- An in-week activity with a heart-rate reading of 160. -/
def hrActB : Activity := ⟨some "2026-10-06 08:00:00", none, none, some 160⟩

/-- An in-week activity with no heart-rate reading. -/
def hrActC : Activity := ⟨some "2026-10-07 08:00:00", none, none, none⟩

/-- C7: the weekly bucket's `avg_heart_rate` is the rounded mean of
`averageHR` over only the member activities with a (truthy) reading:
activities without a reading appear in neither the numerator nor the
denominator; and on readings 150 and 160 plus one missing reading the
result is 155 (not 310/3). -/
theorem C7_avg_hr_excludes_missing :
    (∀ (today : DateTime) (offset : Nat) (acts sel : List Activity) (b : WeekStat),
      filterInWindow (wkStart today offset) (wkEnd today offset) acts = .ok sel →
      weekBucket today acts offset = .ok b →
      b.avg_heart_rate
        = (if 0 < (sel.filter (fun a => hrTruthy a)).length
           then pyRound
              (((sel.filter (fun a => hrTruthy a)).map (fun a => a.averageHR.getD 0)).sum
                / ((sel.filter (fun a => hrTruthy a)).length : ℚ)) 0
           else 0))
    ∧ avgHeartRate [hrActA, hrActB, hrActC] = 155
    ∧ pyRound (avgHeartRate [hrActA, hrActB, hrActC]) 0 = 155 := by
  refine ⟨?_, by with_unfolding_all rfl, by with_unfolding_all rfl⟩
  intro today offset acts sel b hf hb
  rw [weekBucket_ok today acts offset sel hf] at hb
  have hb' := (Except.ok.injEq _ _).mp hb.symm
  rw [hb']
  show pyRound (avgHeartRate sel) 0 = _
  unfold avgHeartRate
  rw [hrSumCount_spec sel]
  by_cases hpos : 0 < (sel.filter (fun a => hrTruthy a)).length
  · rw [if_pos hpos, if_pos hpos]
  · rw [if_neg hpos, if_neg hpos]
    exact pyRound_zero 0

/-- C7 witness: the general statement applied to a concrete bucket of three
activities with readings 150, 160 and one missing, which averages to 155. -/
theorem C7_avg_hr_excludes_missing_witness :
    (⟨"2026-10-05", "2026-10-12", 3, 0, 0, 0, 155⟩ : WeekStat).avg_heart_rate
      = (if 0 < (([hrActA, hrActB, hrActC] : List Activity).filter
            (fun a => hrTruthy a)).length
         then pyRound
            (((([hrActA, hrActB, hrActC] : List Activity).filter
                (fun a => hrTruthy a)).map (fun a => a.averageHR.getD 0)).sum
              / ((([hrActA, hrActB, hrActC] : List Activity).filter
                (fun a => hrTruthy a)).length : ℚ)) 0
         else 0) :=
  C7_avg_hr_excludes_missing.1 cToday 0 [hrActA, hrActB, hrActC] [hrActA, hrActB, hrActC]
    ⟨"2026-10-05", "2026-10-12", 3, 0, 0, 0, 155⟩
    (by with_unfolding_all rfl) (by with_unfolding_all rfl)

/-- C8: the claim says monthly buckets carry the same per-bucket shape as
weekly ones, including an average-heart-rate aggregate.  The monthly dict
literal has no `avg_heart_rate` key at all (and no `week_start`/`week_end`
either; the period is a `month` string), so the claim fails. -/
theorem C8_counterexample :
    "avg_heart_rate" ∈ weekStatKeys ∧ "avg_heart_rate" ∉ monthStatKeys := by
  constructor
  · with_unfolding_all decide
  · with_unfolding_all decide

/-- C8 (amended): a monthly bucket carries the count, distance, duration and
average-pace aggregates computed exactly as in a weekly bucket, but
identifies its period by a year-month string and omits the
average-heart-rate aggregate entirely. -/
theorem C8_monthly_bucket_shape (today : DateTime) (offset : Nat)
    (acts sel : List Activity) (b : MonthStat)
    (hf : filterInWindow (monthStartD today offset) (monthEndD today offset) acts = .ok sel)
    (hb : monthBucket today acts offset = .ok b) :
    b.month = strfYM (monthStartD today offset)
    ∧ b.run_count = sel.length
    ∧ b.total_distance_km = pyRound (totalDistanceKm sel) 2
    ∧ b.total_duration_min = pyRound (totalDurationMin sel) 1
    ∧ b.avg_pace_min_km = pyRound (avgPace sel) 2
    ∧ "avg_heart_rate" ∉ monthStatKeys := by
  rw [monthBucket_ok today acts offset sel hf] at hb
  have hb' := (Except.ok.injEq _ _).mp hb.symm
  rw [hb']
  exact ⟨rfl, rfl, rfl, rfl, rfl, by with_unfolding_all decide⟩

/-- C8 witness: the amended statement applied to a concrete October bucket
containing one activity. -/
theorem C8_monthly_bucket_shape_witness :
    (⟨"2026-10", 1, 5, 30, 6⟩ : MonthStat).run_count
        = ([mondayAct] : List Activity).length
    ∧ "avg_heart_rate" ∉ monthStatKeys := by
  have h := C8_monthly_bucket_shape cToday 0 [mondayAct] [mondayAct] ⟨"2026-10", 1, 5, 30, 6⟩
    (by with_unfolding_all rfl) (by with_unfolding_all rfl)
  exact ⟨h.2.1, h.2.2.2.2.2⟩

/-- C9: `format_pace` returns the fixed placeholder for every non-positive
input (the sentinel 0 included), and for positive pace returns
`M:SS` where `M` is the floor (= truncation, the input being positive) of
the pace and `SS` the zero-padded floor of the fractional remainder times
60; in particular 5.5 renders as "5:30", and 5.9 renders as "5:54" (minute
truncated, not rounded). -/
theorem C9_format_pace_spec :
    (∀ q : ℚ, q ≤ 0 → format_pace q = "--:--")
    ∧ (∀ q : ℚ, 0 < q →
        format_pace q = toString ⌊q⌋ ++ ":" ++ pad2 ⌊(q - (⌊q⌋ : ℚ)) * 60⌋)
    ∧ format_pace (11 / 2) = "5:30"
    ∧ format_pace (59 / 10) = "5:54" := by
  refine ⟨?_, ?_, by with_unfolding_all rfl, by with_unfolding_all rfl⟩
  · intro q hq
    unfold format_pace
    rw [if_pos hq]
  · intro q hq
    unfold format_pace
    rw [if_neg (by linarith)]
    have h1 : pyInt q = ⌊q⌋ := pyInt_of_nonneg q (le_of_lt hq)
    have h2 : pyInt ((q - (⌊q⌋ : ℚ)) * 60) = ⌊(q - (⌊q⌋ : ℚ)) * 60⌋ :=
      pyInt_of_nonneg _ (by
        have := Int.floor_le q
        nlinarith)
    show toString (pyInt q) ++ ":" ++ pad2 (pyInt ((q - (pyInt q : ℚ)) * 60)) = _
    rw [h1, h2]

/-- C9 witness: the non-positive branch applied at the sentinel 0. -/
theorem C9_format_pace_spec_witness : format_pace 0 = "--:--" :=
  C9_format_pace_spec.1 0 (le_refl 0)

/-- The default datetime produced for a missing `startTimeLocal`. -/
def y2kDT : DateTime := ⟨2000, 1, 1, 0, 0, 0, 0⟩

/-- C10: a record without `startTimeLocal` is parsed as the default date
2000-01-01 00:00:00 in both `get_weekly_stats` and `get_monthly_stats`: it
is excluded from every bucket whose start lies after that instant, but is
selected into a bucket whose half-open interval covers it. -/
theorem C10_missing_start_defaults (a : Activity) (ha : a.startTimeLocal = none) :
    parseStart a = some y2kDT
    ∧ (∀ (today : DateTime) (offset : Nat) (acts sel : List Activity), a ∈ acts →
        filterInWindow (wkStart today offset) (wkEnd today offset) acts = .ok sel →
        ((y2kDT.micros < (wkStart today offset).micros → a ∉ sel)
          ∧ ((wkStart today offset).micros ≤ y2kDT.micros
              ∧ y2kDT.micros < (wkEnd today offset).micros → a ∈ sel)))
    ∧ (∀ (today : DateTime) (offset : Nat) (acts sel : List Activity), a ∈ acts →
        filterInWindow (monthStartD today offset) (monthEndD today offset) acts = .ok sel →
        ((y2kDT.micros < (monthStartD today offset).micros → a ∉ sel)
          ∧ ((monthStartD today offset).micros ≤ y2kDT.micros
              ∧ y2kDT.micros < (monthEndD today offset).micros → a ∈ sel))) := by
  have hp : parseStart a = some y2kDT := by
    unfold parseStart
    rw [ha]
    with_unfolding_all rfl
  refine ⟨hp, ?_, ?_⟩
  · intro today offset acts sel hmem hf
    have h := mem_filterInWindow (wkStart today offset) (wkEnd today offset) acts sel hf a
      y2kDT hp
    constructor
    · intro hlt hin
      have := (h.mp hin).2.1
      omega
    · intro hcov
      exact h.mpr ⟨hmem, hcov.1, hcov.2⟩
  · intro today offset acts sel hmem hf
    have h := mem_filterInWindow (monthStartD today offset) (monthEndD today offset) acts sel
      hf a y2kDT hp
    constructor
    · intro hlt hin
      have := (h.mp hin).2.1
      omega
    · intro hcov
      exact h.mpr ⟨hmem, hcov.1, hcov.2⟩

/-- An activity with no `startTimeLocal` key. -/
def noTsAct : Activity := ⟨none, some 5000, some 1800, none⟩

/-- The injected now for the C10 witness: Saturday 2000-01-01 noon, whose
week bucket (Monday 1999-12-27 ..< 2000-01-03) and month bucket
(2000-01-01 ..< 2000-02-01) both cover the default date. -/
def y2kToday : DateTime := ⟨2000, 1, 1, 12, 0, 0, 0⟩

/-- C10 witness: with "now" inside the week and month covering 2000-01-01,
the record with a missing timestamp is selected into both buckets. -/
theorem C10_missing_start_defaults_witness :
    parseStart noTsAct = some y2kDT
    ∧ noTsAct ∈ ([noTsAct] : List Activity)
    ∧ noTsAct ∈ ([noTsAct] : List Activity) := by
  have h := C10_missing_start_defaults noTsAct rfl
  have hweek := (h.2.1 y2kToday 0 [noTsAct] [noTsAct] (by simp)
    (by with_unfolding_all rfl)).2 ⟨by with_unfolding_all decide, by with_unfolding_all decide⟩
  have hmonth := (h.2.2 y2kToday 0 [noTsAct] [noTsAct] (by simp)
    (by with_unfolding_all rfl)).2 ⟨by with_unfolding_all decide, by with_unfolding_all decide⟩
  exact ⟨h.1, hweek, hmonth⟩

end GarminCoach
